import Mathlib

/-!
Shallow embedding of `djangocms_helper/main.py` (django-app-helper) and proofs
about its behaviour.

Conventions of the embedding:
* Python strings are Lean `String`s; Python list operations become `List`
  operations; Python dict iteration becomes iteration over an association
  list (the final `sorted` makes the iteration order immaterial where it is
  used).
* String primitives (`startswith`, `lower`, `strip`, lexicographic
  comparison) are embedded structurally over the character list `String.data`
  so that every definition evaluates on concrete inputs; they agree with the
  Python operations on the data the program handles (Python compares strings
  lexicographically by code point; `lower` is exercised only on ASCII names).
* Python `sorted` (a stable sort) is embedded as `List.insertionSort`, which
  is also stable; wherever the program sorts, either the comparison keys are
  distinct or equal keys belong to identical elements, so the result is the
  same for any stable sort.
* Exceptions and `sys.exit` are embedded by the explicit `Outcome` type:
  `ok` for a normal return, `error` for a propagating exception
  (ImportError, IOError, AssertionError, a configuration failure, ...) and
  `exit n` for `SystemExit` raised by `sys.exit(n)` or by `docopt`.
* Filesystem effects relevant to the claims (creation and removal of the
  two temporary directories) are embedded as explicit state passing over
  `FsState`.
-/

/-- Result of a piece of Python code: normal value, propagating exception,
or `SystemExit` with an exit code (`sys.exit(n)`). -/
inductive Outcome (α : Type) where
  | ok (a : α)
  | error
  | exit (code : Nat)
deriving DecidableEq, Repr

/-- The filesystem state the claims are about: the list of existing temporary
directories, as identifiers, plus a counter supplying fresh names
(`tempfile.mkdtemp` never reuses a live name). -/
structure FsState where
  dirs : List Nat
  next : Nat
deriving DecidableEq, Repr

/-- Embedding of Python `s.startswith(p)`: `p.data` is a list-prefix of
`s.data`. -/
def startswith (s p : String) : Bool :=
  p.data.isPrefixOf s.data

/-- Embedding of Python `s.lower()` (character-wise lower-casing; the
program only lower-cases ASCII author names, where `Char.toLower` agrees
with Python). -/
def lowerStr (s : String) : String :=
  ⟨s.data.map Char.toLower⟩

/-- Lexicographic (code-point) comparison of character lists, Python's `<=`
on strings. -/
def strLeB : List Char → List Char → Bool
  | [], _ => true
  | _ :: _, [] => false
  | a :: as, b :: bs => a < b || (a == b && strLeB as bs)

/-- Python `a <= b` on strings, as a proposition. -/
def strLe (a b : String) : Prop :=
  strLeB a.data b.data = true

instance : DecidableRel strLe :=
  fun _ _ => inferInstanceAs (Decidable (_ = true))

/-- Comparison of strings by their lower-cased form: the order used by
`sorted(authors, key=lambda x: x.lower())`. -/
def keyLe (a b : String) : Prop :=
  strLeB (lowerStr a).data (lowerStr b).data = true

instance : DecidableRel keyLe :=
  fun _ _ => inferInstanceAs (Decidable (_ = true))

/-- Embedding of Python `s.strip(chars)`: drop the characters of `cs` from
both ends of `s`. -/
def stripChars (cs : List Char) (s : String) : String :=
  ⟨((s.data.dropWhile (fun c => cs.contains c)).reverse.dropWhile
      (fun c => cs.contains c)).reverse⟩

/-- Embedding of Python `s.strip()` (no argument): strip whitespace from
both ends. -/
def pythonStrip (s : String) : String :=
  stripChars [' ', '\t', '\n', '\x0d', '\x0b', '\x0c'] s

/-- A class found by `pyclbr.readmodule`: its (unqualified) name and the
names of the methods defined in it. `pyclbr` keys classes by plain class
name, so `name` carries no module prefix. -/
structure PyClass where
  name : String
  methods : List String
deriving DecidableEq, Repr

/-- One module found by `pkgutil.iter_modules` in `<application>/tests`,
together with the classes `pyclbr.readmodule` reports for it. -/
structure TestModule where
  name : String
  classes : List PyClass
deriving DecidableEq, Repr

/-- Embedding of `_get_test_labels` (main.py lines 44-53): iterate the
modules of `<application>/tests`; for each class of each module, append one
label `application.ClassName.methodName` for every method whose name starts
with `test_`; finally sort. The module list stands for the directory
contents handed over by `pkgutil`/`pyclbr`. -/
def get_test_labels (application : String) (modules : List TestModule) : List String :=
  let test_labels : List String := modules.foldl (fun acc m =>
    m.classes.foldl (fun acc cls =>
      cls.methods.foldl (fun acc method =>
        if startswith method "test_" then
          acc ++ [application ++ "." ++ cls.name ++ "." ++ method]
        else acc) acc) acc) []
  test_labels.insertionSort strLe

/-- The labels of one class, declaratively: one per `test_`-prefixed method. -/
def classLabels (application : String) (cls : PyClass) : List String :=
  (cls.methods.filter (fun method => startswith method "test_")).map
    (fun method => application ++ "." ++ cls.name ++ "." ++ method)

/-- The unsorted label multiset of a module list, declaratively. -/
def allLabels (application : String) (modules : List TestModule) : List String :=
  modules.flatMap (fun m => m.classes.flatMap (fun cls => classLabels application cls))

/-- One step of the deduplicating accumulation in `generate_authors`
(main.py lines 153-155 and 158-160): the state is the pair
`(seen_authors, authors)`; an author is appended only if its lower-cased
form has not been seen, and then its lower-cased form is recorded. -/
def addAuthor (st : List String × List String) (author : String) :
    List String × List String :=
  if st.1.contains (lowerStr author) then st
  else (st.1 ++ [lowerStr author], st.2 ++ [author])

/-- Embedding of `generate_authors` (main.py lines 137-166), as a function of
its two inputs: the lines of the AUTHORS file (`f.readlines()`, newlines
included) and the lines produced by the `git log --format=%aN` subprocess
(`r.stdout.readlines()`). It returns the author list the function prints:
file lines starting with `*` are stripped of `'* \n'` characters and
accumulated first, then the stripped log lines, each deduplicated
case-insensitively keeping the first-seen casing; the result is sorted by
lower-cased key. The function only prints this list; it never writes the
AUTHORS file. -/
def generate_authors (fileLines logLines : List String) : List String :=
  let st1 := fileLines.foldl (fun st line =>
    if startswith line "*" then addAuthor st (stripChars ['*', ' ', '\n'] line)
    else st) ([], [])
  let st2 := logLines.foldl (fun st line => addAuthor st (pythonStrip line)) st1
  List.insertionSort keyLe st2.2

/-- One step of case-insensitive first-occurrence deduplication, stated the
way the spec words it (no separate seen-list: an author is kept if no
already-kept author has the same lower-cased form). -/
def dedupStep (acc : List String) (a : String) : List String :=
  if (acc.map lowerStr).contains (lowerStr a) then acc else acc ++ [a]

/-- Case-insensitive deduplication keeping the first occurrence's casing. -/
def dedupCaseInsensitive (authors : List String) : List String :=
  authors.foldl dedupStep []

/-- The Authors merge as the spec words it: authors parsed from the AUTHORS
file first, then the stripped log authors, deduplicated case-insensitively
preserving first-seen casing, sorted case-insensitively. -/
def authorsMergeSpec (fileLines logLines : List String) : List String :=
  List.insertionSort keyLe
    (dedupCaseInsensitive
      ((fileLines.filter (fun line => startswith line "*")).map
          (fun line => stripChars ['*', ' ', '\n'] line)
        ++ logLines.map pythonStrip))

/-- The locale argument handed to the makemessages facility: on Django 1.5
the `locale` keyword receives the single string `'en'`, on later versions the
one-element tuple `('en',)` (main.py lines 100-103). -/
inductive MakemessagesCall where
  | localeString (locale : String)
  | localeTuple (locales : List String)
deriving DecidableEq, Repr

/-- The set of locales a `MakemessagesCall` asks extraction for. -/
def MakemessagesCall.locales : MakemessagesCall → List String
  | MakemessagesCall.localeString l => [l]
  | MakemessagesCall.localeTuple ls => ls

/-- Embedding of `makemessages` (main.py lines 93-103): inside the
application's directory, call the framework's `makemessages` command with
locale `'en'` — as a plain string on Django 1.5, as a one-element tuple
otherwise. `django15` stands for the `DJANGO_1_5` version flag imported from
`.utils`. -/
def makemessages (django15 : Bool) : MakemessagesCall :=
  if django15 then MakemessagesCall.localeString "en"
  else MakemessagesCall.localeTuple ["en"]

/-- The management command issued by the `makemigrations` handler. -/
inductive MigrationCommand where
  | schemamigration (application : String) (initial : Bool) (auto : Bool)
  | djangoMakemigrations (application : String)
deriving DecidableEq, Repr

/-- Embedding of `makemigrations` (main.py lines 115-134). `django16` stands
for the `DJANGO_1_6` version flag imported from `.utils`; `initialExists`
tells whether `load_from_file(<application>/migrations/0001_initial.py)`
succeeds (`false` embeds the IOError branch that sets `loaded = None`).
On Django <= 1.6 the south `schemamigration` command is called with
`initial = (loaded is None)` and `auto = not initial`; on later versions the
framework's own `makemigrations` command is called with no mode flag. -/
def makemigrationsOp (django16 : Bool) (initialExists : Bool)
    (application : String) : MigrationCommand :=
  if django16 then
    let initial := !initialExists
    MigrationCommand.schemamigration application initial (!initial)
  else MigrationCommand.djangoMakemigrations application

/-- Observable result of the `static_analisys` handler. -/
inductive AnalysisResult where
  | ok
  | assertionError
  | infoMessage
deriving DecidableEq, Repr

/-- Embedding of `static_analisys` (main.py lines 169-179): the `try` block
imports `cms.test_utils.util.static_analysis.pyflakes`, imports the
application module, and asserts that `pyflakes` reports zero issues.
`cmsInstalled` tells whether the cms import succeeds, `appImportable`
whether the application import succeeds (both ImportErrors are caught by
the same handler, which prints an informational message and returns
normally); `issues` is the count returned by `pyflakes`. A non-zero count
makes the `assert` raise AssertionError, which is not caught and propagates
as a loud failure. -/
def static_analisys (cmsInstalled appImportable : Bool) (issues : Nat) :
    AnalysisResult :=
  if !cmsInstalled then AnalysisResult.infoMessage
  else if !appImportable then AnalysisResult.infoMessage
  else if issues == 0 then AnalysisResult.ok
  else AnalysisResult.assertionError

/-- The closed set of seven operations of the usage grammar
(main.py lines 24-30). -/
inductive Op where
  | test
  | shell
  | compilemessages
  | makemessages
  | makemigrations
  | pyflakes
  | authors
deriving DecidableEq, Repr

/-- The parsed command, the dictionary `docopt` returns: exactly one
operation key is true, plus the option values consulted by `core`. The
values of `--runner` and `--extra-settings` are consumed by collaborators
that are abstracted in `Env`, so only the options `core` branches on are
carried. -/
structure Args where
  op : Op
  testLabels : List String
  failfast : Bool
  migrate : Bool
  xvfb : Bool
  cms : Bool
deriving DecidableEq, Repr

/-- Behaviour of the external collaborators `core` calls into, as abstract
parameters of the embedding: the content of the application's tests
directory, the runner behaviour (`run_tests(labels)(failfast)` returns the
failure count), whether `_make_settings` succeeds, whether `import
xvfbwrapper` succeeds, whether `import_module(application)` succeeds in
`main`, and the outcome of each delegated non-test handler. -/
structure Env where
  modules : List TestModule
  run_tests : List String → Bool → Nat
  makeSettingsOk : Bool
  xvfbAvailable : Bool
  appImportable : Bool
  delegate : Op → Outcome Unit

/-- The labels handed to `_test_run_worker` by `test` (main.py line 79):
`test_labels or _get_test_labels(application)` — the explicit labels if the
list is non-empty (truthy), the discoverer's output otherwise. -/
def testLabelsPassed (test_labels : List String) (application : String)
    (modules : List TestModule) : List String :=
  if test_labels.isEmpty then get_test_labels application modules else test_labels

/-- Embedding of `test` (main.py lines 72-80): choose the labels, then hand
them to `_test_run_worker`, whose runner behaviour is the abstract
`run_tests`; the returned number is the failure count. -/
def testOp (env : Env) (test_labels : List String) (application : String)
    (failfast : Bool) : Nat :=
  env.run_tests (testLabelsPassed test_labels application env.modules) failfast

/-- Modelled from the spec: `temp_dir` is defined in
`djangocms_helper/utils.py`, which is not among the provided sources.
Spec 4.3 ("Scoped Resource Manager"): it creates a fresh, uniquely named
temporary directory, passes its path to the body, and guarantees it is
recursively removed when the body returns, returns an error, or is
interrupted (including a hard exit from within test execution). Embedded as
one scoped allocation over `FsState`: a fresh directory identifier is
created, the body runs, and the directory is removed whatever the body's
outcome (`ok`, `error`, or `exit`). -/
def temp_dir {α : Type} (body : Nat → FsState → Outcome α × FsState)
    (s : FsState) : Outcome α × FsState :=
  let d := s.next
  let s1 : FsState := { dirs := d :: s.dirs, next := s.next + 1 }
  let r := body d s1
  (r.1, { dirs := r.2.dirs.erase d, next := r.2.next })

/-- The branch `core` takes once settings are made (main.py lines 196-229):
for `test`, an optional xvfb context is entered (`import xvfbwrapper` may
fail), the suite runs and `sys.exit(num_failures)` raises SystemExit with
the failure count; every other operation is routed to its handler, whose
delegated outcome is `env.delegate`. If `_make_settings` raises, the
exception propagates. The handlers do not touch the two temporary
directories, so this step is a pure `Outcome`. -/
def dispatch (env : Env) (args : Args) (application : String) : Outcome Unit :=
  if env.makeSettingsOk then
    match args.op with
    | Op.test =>
      if args.xvfb && !env.xvfbAvailable then Outcome.error
      else Outcome.exit (testOp env args.testLabels application args.failfast)
    | op => env.delegate op
  else Outcome.error

/-- Embedding of `core` (main.py lines 182-229): two nested `with temp_dir()`
scopes create STATIC_ROOT and MEDIA_ROOT, `_make_settings` runs inside them,
then exactly one handler; both scopes release their directory on every
outcome. -/
def core (env : Env) (args : Args) (application : String) (s : FsState) :
    Outcome Unit × FsState :=
  temp_dir (fun _STATIC_ROOT s1 =>
    temp_dir (fun _MEDIA_ROOT s2 =>
      (dispatch env args application, s2)) s1) s

/-- A raw command line, structurally: the two positional tokens
`<application>` and the operation word, the option flags given, and the
trailing `<test-label>...` positionals. -/
structure RawCmd where
  application : String
  opword : String
  flags : List String
  positionals : List String
deriving DecidableEq, Repr

/-- The seven operation keywords of the usage grammar, in grammar order. -/
def operations : List (String × Op) :=
  [("test", Op.test), ("shell", Op.shell), ("compilemessages", Op.compilemessages),
   ("makemessages", Op.makemessages), ("makemigrations", Op.makemigrations),
   ("pyflakes", Op.pyflakes), ("authors", Op.authors)]

/-- The option flags the usage grammar allows for each operation
(main.py lines 24-30): `test` takes the full set, every other operation
only `--extra-settings` and `--cms`. -/
def allowedFlags : Op → List String
  | Op.test => ["--failfast", "--migrate", "--xvfb", "--runner",
                "--extra-settings", "--cms"]
  | _ => ["--extra-settings", "--cms"]

/-- Modelled from the usage grammar in `__doc__` (main.py lines 23-30) as
interpreted by the external `docopt` library: the operation word must be one
of the seven keywords, every flag given must be allowed for that operation,
and `<test-label>...` positionals may appear only for `test`; any violation
makes `docopt` print the usage text and raise SystemExit before returning. -/
def docoptParse (raw : RawCmd) : Option Args :=
  match operations.lookup raw.opword with
  | none => none
  | some op =>
    if raw.flags.all (fun f => (allowedFlags op).contains f)
        && (op == Op.test || raw.positionals.isEmpty) then
      some { op := op, testLabels := raw.positionals,
             failfast := raw.flags.contains "--failfast",
             migrate := raw.flags.contains "--migrate",
             xvfb := raw.flags.contains "--xvfb",
             cms := raw.flags.contains "--cms" }
    else none

/-- Embedding of `main` (main.py lines 232-241): parse the command line with
`docopt` (usage error raises SystemExit before anything else happens), import
the application module (ImportError propagates), then run `core`. Temporary
directories are created only inside `core`. -/
def mainEntry (env : Env) (raw : RawCmd) (s : FsState) : Outcome Unit × FsState :=
  match docoptParse raw with
  | none => (Outcome.exit 1, s)
  | some args =>
    if env.appImportable then core env args raw.application s
    else (Outcome.error, s)

/-- Two distinct test modules defining identically named classes with an
identically named `test_`-method: the situation claim C2 says is
disambiguated by a "module-derived class name". -/
def dupModules : List TestModule :=
  [⟨"module_a", [⟨"TestThing", ["test_x"]⟩]⟩,
   ⟨"module_b", [⟨"TestThing", ["test_x"]⟩]⟩]

/-- A concrete collaborator environment used to instantiate the theorems
with hypotheses: one test module with one test method and one helper, a
runner that reports one failure per label, and all collaborators available. -/
def envExample : Env :=
  { modules := [⟨"module_a", [⟨"SomeCase", ["test_a", "helper"]⟩]⟩],
    run_tests := fun labels _ => labels.length,
    makeSettingsOk := true,
    xvfbAvailable := true,
    appImportable := true,
    delegate := fun _ => Outcome.ok () }

/-- A concrete parsed test invocation with no explicit labels. -/
def argsTest : Args :=
  { op := Op.test, testLabels := [], failfast := false, migrate := false,
    xvfb := false, cms := false }

theorem strLeB_total (as bs : List Char) :
    strLeB as bs = true ∨ strLeB bs as = true := by
  induction as generalizing bs with
  | nil => left; rfl
  | cons a as ih =>
    cases bs with
    | nil => right; rfl
    | cons b bs =>
      rcases lt_trichotomy a b with h | h | h
      · left; simp [strLeB, h]
      · subst h
        rcases ih bs with ht | ht
        · left; simp [strLeB, ht]
        · right; simp [strLeB, ht]
      · right; simp [strLeB, h]

theorem strLeB_trans (as bs cs : List Char) (h1 : strLeB as bs = true)
    (h2 : strLeB bs cs = true) : strLeB as cs = true := by
  induction as generalizing bs cs with
  | nil => rfl
  | cons a as ih =>
    cases bs with
    | nil => simp [strLeB] at h1
    | cons b bs =>
      cases cs with
      | nil => simp [strLeB] at h2
      | cons c cs =>
        simp only [strLeB, Bool.or_eq_true, Bool.and_eq_true, decide_eq_true_eq,
          beq_iff_eq] at h1 h2 ⊢
        rcases h1 with h1 | ⟨h1, h1t⟩ <;> rcases h2 with h2 | ⟨h2, h2t⟩
        · exact Or.inl (lt_trans h1 h2)
        · exact Or.inl (h2 ▸ h1)
        · exact Or.inl (h1 ▸ h2)
        · exact Or.inr ⟨h1.trans h2, ih bs cs h1t h2t⟩

theorem foldl_labels_methods (application clsname : String) (methods : List String)
    (acc : List String) :
    methods.foldl (fun acc method =>
      if startswith method "test_" then
        acc ++ [application ++ "." ++ clsname ++ "." ++ method]
      else acc) acc
      = acc ++ (methods.filter (fun method => startswith method "test_")).map
          (fun method => application ++ "." ++ clsname ++ "." ++ method) := by
  induction methods generalizing acc with
  | nil => simp
  | cons m ms ih =>
    by_cases h : startswith m "test_" = true
    · simp [h, ih, List.filter_cons, List.append_assoc]
    · simp only [Bool.not_eq_true] at h
      simp [h, ih, List.filter_cons]

theorem foldl_labels_class (application : String) (cls : PyClass) (acc : List String) :
    cls.methods.foldl (fun acc method =>
      if startswith method "test_" then
        acc ++ [application ++ "." ++ cls.name ++ "." ++ method]
      else acc) acc = acc ++ classLabels application cls :=
  foldl_labels_methods application cls.name cls.methods acc

theorem foldl_labels_module (application : String) (classes : List PyClass)
    (acc : List String) :
    classes.foldl (fun acc cls =>
      cls.methods.foldl (fun acc method =>
        if startswith method "test_" then
          acc ++ [application ++ "." ++ cls.name ++ "." ++ method]
        else acc) acc) acc
      = acc ++ classes.flatMap (fun cls => classLabels application cls) := by
  induction classes generalizing acc with
  | nil => simp
  | cons c cs ih =>
    simp only [List.foldl_cons, List.flatMap_cons]
    rw [foldl_labels_class, ih]
    simp [List.append_assoc]

theorem foldl_labels_modules (application : String) (modules : List TestModule)
    (acc : List String) :
    modules.foldl (fun acc m =>
      m.classes.foldl (fun acc cls =>
        cls.methods.foldl (fun acc method =>
          if startswith method "test_" then
            acc ++ [application ++ "." ++ cls.name ++ "." ++ method]
          else acc) acc) acc) acc
      = acc ++ allLabels application modules := by
  induction modules generalizing acc with
  | nil => simp [allLabels]
  | cons m ms ih =>
    simp only [List.foldl_cons, allLabels, List.flatMap_cons]
    rw [foldl_labels_module, ih]
    simp [allLabels, List.append_assoc]

theorem get_test_labels_eq (application : String) (modules : List TestModule) :
    get_test_labels application modules
      = (allLabels application modules).insertionSort strLe := by
  unfold get_test_labels
  rw [foldl_labels_modules]
  simp

theorem get_test_labels_sorted (application : String) (modules : List TestModule) :
    (get_test_labels application modules).Sorted strLe := by
  haveI : IsTotal String strLe := ⟨fun a b => strLeB_total a.data b.data⟩
  haveI : IsTrans String strLe := ⟨fun a b c => strLeB_trans a.data b.data c.data⟩
  rw [get_test_labels_eq]
  exact List.sorted_insertionSort strLe _

theorem get_test_labels_perm (application : String) (modules : List TestModule) :
    (get_test_labels application modules).Perm (allLabels application modules) := by
  rw [get_test_labels_eq]
  exact List.perm_insertionSort strLe _

theorem addAuthor_dedupStep (st : List String × List String) (a : String)
    (h : st.1 = st.2.map lowerStr) :
    (addAuthor st a).2 = dedupStep st.2 a
      ∧ (addAuthor st a).1 = (addAuthor st a).2.map lowerStr := by
  unfold addAuthor dedupStep
  rw [h]
  by_cases hc : ((st.2.map lowerStr).contains (lowerStr a)) = true
  · rw [if_pos hc, if_pos hc]
    exact ⟨rfl, h⟩
  · rw [if_neg hc, if_neg hc]
    exact ⟨rfl, by simp⟩

theorem foldl_addAuthor_dedup (l : List String) (st : List String × List String)
    (h : st.1 = st.2.map lowerStr) :
    (l.foldl addAuthor st).2 = l.foldl dedupStep st.2
      ∧ (l.foldl addAuthor st).1 = (l.foldl addAuthor st).2.map lowerStr := by
  induction l generalizing st with
  | nil => exact ⟨rfl, h⟩
  | cons a lrest ih =>
    obtain ⟨h2, h1⟩ := addAuthor_dedupStep st a h
    simpa [h2] using ih (addAuthor st a) h1

theorem foldl_file_lines (fileLines : List String) (st : List String × List String) :
    fileLines.foldl (fun st line =>
      if startswith line "*" then addAuthor st (stripChars ['*', ' ', '\n'] line)
      else st) st
      = ((fileLines.filter (fun line => startswith line "*")).map
          (fun line => stripChars ['*', ' ', '\n'] line)).foldl addAuthor st := by
  induction fileLines generalizing st with
  | nil => rfl
  | cons line rest ih =>
    by_cases h : startswith line "*" = true
    · simp [List.filter_cons, h, ih]
    · simp only [Bool.not_eq_true] at h
      simp [List.filter_cons, h, ih]

theorem generate_authors_eq_spec (fileLines logLines : List String) :
    generate_authors fileLines logLines = authorsMergeSpec fileLines logLines := by
  unfold generate_authors authorsMergeSpec dedupCaseInsensitive
  dsimp only
  rw [foldl_file_lines]
  rw [← List.foldl_map pythonStrip addAuthor logLines]
  rw [← List.foldl_append]
  rw [(foldl_addAuthor_dedup _ ([], []) rfl).1]

theorem core_state (env : Env) (args : Args) (application : String) (s : FsState) :
    core env args application s
      = (dispatch env args application, { dirs := s.dirs, next := s.next + 2 }) := by
  unfold core temp_dir
  dsimp only
  simp [List.erase_cons_head]

theorem dispatch_test (env : Env) (args : Args) (application : String)
    (hop : args.op = Op.test) (hset : env.makeSettingsOk = true)
    (hx : (args.xvfb && !env.xvfbAvailable) = false) :
    dispatch env args application
      = Outcome.exit (testOp env args.testLabels application args.failfast) := by
  unfold dispatch
  rw [hset, hop, hx]
  simp

/-- C1: for every command invocation (any of the seven operations), the two
temporary directories created by the scoped resource manager are removed by
the time the command completes, in all outcomes — normal return of the
handler, an error raised by configuration assembly or the handler, and a
hard exit (SystemExit) raised from within test execution: the final
filesystem state contains exactly the directories that existed before the
command, with both allocations (identifiers `s.next` and `s.next + 1`)
gone. -/
theorem core_removes_temp_dirs (env : Env) (args : Args) (application : String)
    (s : FsState) :
    ((core env args application s).2).dirs = s.dirs
      ∧ (core env args application s).2 = { dirs := s.dirs, next := s.next + 2 } := by
  rw [core_state]
  exact ⟨rfl, rfl⟩

/-- C2 counterexample: `_get_test_labels` qualifies a label only by the
application name and the plain (pyclbr) class name, never by the module, so
the two modules of `dupModules` both contribute the label
`app.TestThing.test_x` and the resulting sequence has a duplicate — the
claimed no-duplicates property is false. -/
theorem discovery_duplicate_labels_cex :
    get_test_labels "app" dupModules
        = ["app.TestThing.test_x", "app.TestThing.test_x"]
      ∧ ¬ (get_test_labels "app" dupModules).Nodup := by
  constructor
  · decide
  · intro h
    have := ((get_test_labels_perm "app" dupModules).nodup_iff).mp h
    revert this
    decide

/-- C2 (amended): for every test source tree, the sequence of labels produced
by discovery is sorted lexicographically; it can contain duplicate labels
when two distinct modules define identically named classes with identically
named test methods, because a label is qualified only by the class name, not
by the module (see the counterexample). -/
theorem discovery_sorted_amended (application : String) (modules : List TestModule) :
    (get_test_labels application modules).Sorted strLe :=
  get_test_labels_sorted application modules

/-- C3: the Authors operation produces, for every AUTHORS file content and
author-log sequence, the list obtained by taking file authors first then log
authors, deduplicating case-insensitively while preserving the casing of the
first occurrence, and sorting case-insensitively; in particular, for a file
containing `* Alice` and `* bob` and a log yielding `Carol` and `alice`, the
output list is `["Alice", "bob", "Carol"]`. -/
theorem generate_authors_correct :
    (∀ fileLines logLines,
        generate_authors fileLines logLines = authorsMergeSpec fileLines logLines)
      ∧ generate_authors ["* Alice\n", "* bob\n"] ["Carol\n", "alice\n"]
        = ["Alice", "bob", "Carol"] :=
  ⟨generate_authors_eq_spec, by decide⟩

/-- C4: for every run of the test operation (with configuration assembly
succeeding and the optional xvfb context available when requested), the
process exit code raised by `core` equals the failure count returned by the
underlying test execution, and it is 0 exactly when zero tests failed. -/
theorem test_exit_code_eq_failures (env : Env) (args : Args) (application : String)
    (s : FsState) (hop : args.op = Op.test) (hset : env.makeSettingsOk = true)
    (hx : args.xvfb = false ∨ env.xvfbAvailable = true) :
    (core env args application s).1
        = Outcome.exit (env.run_tests
            (testLabelsPassed args.testLabels application env.modules) args.failfast)
      ∧ ((core env args application s).1 = Outcome.exit 0
          ↔ env.run_tests (testLabelsPassed args.testLabels application env.modules)
              args.failfast = 0) := by
  have hcond : (args.xvfb && !env.xvfbAvailable) = false := by
    rcases hx with h | h <;> simp [h]
  rw [core_state, dispatch_test env args application hop hset hcond]
  unfold testOp
  exact ⟨rfl, by simp⟩

/-- C4 witness: with the example environment (one discovered test label, a
runner reporting one failure per label) the test invocation exits with code
1, the failure count. -/
theorem test_exit_code_eq_failures_witness :
    (argsTest.op = Op.test ∧ envExample.makeSettingsOk = true
        ∧ (argsTest.xvfb = false ∨ envExample.xvfbAvailable = true))
      ∧ ((core envExample argsTest "app" ⟨[], 0⟩).1
          = Outcome.exit (envExample.run_tests
              (testLabelsPassed argsTest.testLabels "app" envExample.modules)
              argsTest.failfast)
        ∧ ((core envExample argsTest "app" ⟨[], 0⟩).1 = Outcome.exit 0
            ↔ envExample.run_tests
                (testLabelsPassed argsTest.testLabels "app" envExample.modules)
                argsTest.failfast = 0)) :=
  ⟨⟨rfl, rfl, Or.inl rfl⟩,
   test_exit_code_eq_failures envExample argsTest "app" ⟨[], 0⟩ rfl rfl (Or.inl rfl)⟩

/-- C5: a raw command line whose operation keyword is not one of the seven
recognized operations is rejected during argument parsing, and any
invocation rejected by parsing (unknown keyword or malformed flag
combination) terminates with the usage SystemExit, leaving the filesystem
state untouched — in particular the allocation counter is unchanged, so no
temporary directory was ever created. -/
theorem unknown_op_rejected_before_alloc (env : Env) (raw : RawCmd) (s : FsState) :
    (raw.opword ∉ operations.map Prod.fst → docoptParse raw = none)
      ∧ (docoptParse raw = none → mainEntry env raw s = (Outcome.exit 1, s)) := by
  constructor
  · intro h
    simp [operations] at h
    obtain ⟨h1, h2, h3, h4, h5, h6, h7⟩ := h
    simp [docoptParse, operations, List.lookup, beq_eq_false_iff_ne.mpr h1,
      beq_eq_false_iff_ne.mpr h2, beq_eq_false_iff_ne.mpr h3,
      beq_eq_false_iff_ne.mpr h4, beq_eq_false_iff_ne.mpr h5,
      beq_eq_false_iff_ne.mpr h6, beq_eq_false_iff_ne.mpr h7]
  · intro h
    simp [mainEntry, h]

/-- C5 witness: the unrecognized keyword `frobnicate` is rejected at parse
time and the filesystem state (including the allocation counter) is exactly
the initial one. -/
theorem unknown_op_rejected_before_alloc_witness :
    ((("frobnicate" : String) ∉ operations.map Prod.fst
        → docoptParse ⟨"app", "frobnicate", [], []⟩ = none)
      ∧ (docoptParse ⟨"app", "frobnicate", [], []⟩ = none
        → mainEntry envExample ⟨"app", "frobnicate", [], []⟩ ⟨[], 0⟩
          = (Outcome.exit 1, ⟨[], 0⟩)))
      ∧ docoptParse ⟨"app", "frobnicate", [], []⟩ = none
      ∧ mainEntry envExample ⟨"app", "frobnicate", [], []⟩ ⟨[], 0⟩
        = (Outcome.exit 1, ⟨[], 0⟩) :=
  ⟨unknown_op_rejected_before_alloc envExample ⟨"app", "frobnicate", [], []⟩ ⟨[], 0⟩,
   (unknown_op_rejected_before_alloc envExample ⟨"app", "frobnicate", [], []⟩
      ⟨[], 0⟩).1 (by decide),
   (unknown_op_rejected_before_alloc envExample ⟨"app", "frobnicate", [], []⟩
      ⟨[], 0⟩).2 (by decide)⟩

/-- C6: on the Django 1.6 (south) branch — the only branch that selects a
generation mode — `makemigrations` selects the "initial" mode
(`schemamigration` with `initial=True, auto=False`) exactly when loading the
application's `0001_initial` migration fails, and the "incremental" mode
(`initial=False, auto=True`) exactly when the initial migration exists. On
Django 1.7+ the handler delegates wholesale to the framework's
`makemigrations` with no mode flag. -/
theorem makemigrations_mode_selection (django16 initialExists : Bool)
    (application : String) (h16 : django16 = true) :
    (makemigrationsOp django16 initialExists application
        = MigrationCommand.schemamigration application true false
      ↔ initialExists = false)
      ∧ (makemigrationsOp django16 initialExists application
        = MigrationCommand.schemamigration application false true
      ↔ initialExists = true) := by
  subst h16
  cases initialExists <;> simp [makemigrationsOp]

/-- C6 witness: on the south branch with no initial migration present, the
initial mode is selected and the incremental mode is not. -/
theorem makemigrations_mode_selection_witness :
    ((true : Bool) = true)
      ∧ ((makemigrationsOp true false "app"
            = MigrationCommand.schemamigration "app" true false
          ↔ (false : Bool) = false)
        ∧ (makemigrationsOp true false "app"
            = MigrationCommand.schemamigration "app" false true
          ↔ (false : Bool) = true)) :=
  ⟨rfl, makemigrations_mode_selection true false "app" rfl⟩

/-- C7: discovery emits, for every application, exactly one label per
`test_`-prefixed method of each class of each test module — the output is a
permutation of `allLabels`, which contains one entry formatted
`application.ClassName.methodName` per such method and none for methods
without the prefix — and the output sequence is sorted lexicographically. -/
theorem discovery_labels_characterization (application : String)
    (modules : List TestModule) :
    (get_test_labels application modules).Perm (allLabels application modules)
      ∧ (get_test_labels application modules).Sorted strLe :=
  ⟨get_test_labels_perm application modules,
   get_test_labels_sorted application modules⟩

/-- C8: if the explicit label sequence is non-empty, exactly those labels are
passed to test execution and the discoverer's output is irrelevant (the
chosen labels are the same for any tests-directory content); if it is empty,
the labels passed are exactly the discoverer's output for the application. -/
theorem test_labels_selection (env : Env) (labels : List String)
    (application : String) (failfast : Bool) :
    (labels ≠ [] → testOp env labels application failfast
        = env.run_tests labels failfast)
      ∧ (labels ≠ [] → ∀ modules2 : List TestModule,
          testLabelsPassed labels application modules2 = labels)
      ∧ (labels = [] → testOp env labels application failfast
          = env.run_tests (get_test_labels application env.modules) failfast) := by
  refine ⟨?_, ?_, ?_⟩
  · intro h
    have he : labels.isEmpty = false := by
      simpa [List.isEmpty_iff] using h
    simp [testOp, testLabelsPassed, he]
  · intro h modules2
    have he : labels.isEmpty = false := by
      simpa [List.isEmpty_iff] using h
    simp [testLabelsPassed, he]
  · intro h
    subst h
    simp [testOp, testLabelsPassed]

/-- C8 witness: with one explicit label the runner receives exactly that
label; with no explicit label it receives the discoverer's output. -/
theorem test_labels_selection_witness :
    ((["x.Y.test_z"] : List String) ≠ [])
      ∧ testOp envExample ["x.Y.test_z"] "app" false
        = envExample.run_tests ["x.Y.test_z"] false
      ∧ testLabelsPassed ["x.Y.test_z"] "app" dupModules = ["x.Y.test_z"]
      ∧ testOp envExample [] "app" false
        = envExample.run_tests (get_test_labels "app" envExample.modules) false :=
  ⟨by decide,
   (test_labels_selection envExample ["x.Y.test_z"] "app" false).1 (by decide),
   (test_labels_selection envExample ["x.Y.test_z"] "app" false).2.1
     (by decide) dupModules,
   (test_labels_selection envExample [] "app" false).2.2 rfl⟩

/-- C9: the StaticAnalysis handler ends in the uncaught AssertionError (a
loud, non-zero failure) whenever django CMS is importable, the application
is importable and the analysis reports at least one issue; and when the
analysis facility is unavailable (the cms import fails) it does not fail: it
prints the informational message and returns normally. -/
theorem static_analysis_outcomes (cmsInstalled appImportable : Bool) (issues : Nat) :
    (cmsInstalled = true → appImportable = true → 0 < issues →
        static_analisys cmsInstalled appImportable issues
          = AnalysisResult.assertionError)
      ∧ (cmsInstalled = false →
        static_analisys cmsInstalled appImportable issues
          = AnalysisResult.infoMessage) := by
  constructor
  · intro h1 h2 h3
    subst h1
    subst h2
    have hz : (issues == 0) = false := by
      rw [beq_eq_false_iff_ne]
      omega
    simp [static_analisys, hz]
  · intro h1
    subst h1
    simp [static_analisys]

/-- C9 witness: one reported issue yields the uncaught AssertionError; with
the cms import unavailable the handler returns the informational message. -/
theorem static_analysis_outcomes_witness :
    ((true : Bool) = true ∧ 0 < 1 ∧ (false : Bool) = false)
      ∧ static_analisys true true 1 = AnalysisResult.assertionError
      ∧ static_analisys false true 0 = AnalysisResult.infoMessage :=
  ⟨⟨rfl, by decide, rfl⟩,
   (static_analysis_outcomes true true 1).1 rfl rfl (by decide),
   (static_analysis_outcomes false true 0).2 rfl⟩

/-- C10: the makemessages handler requests extraction for exactly the single
locale `en`, on both version branches (plain string on Django 1.5,
one-element tuple otherwise); no other locale is ever passed, whatever the
invocation's options (the handler receives none of them). -/
theorem makemessages_only_en (django15 : Bool) :
    (makemessages django15).locales = ["en"] := by
  cases django15 <;> rfl
